import Mathlib

/-!
Shallow embedding of `scripts/interactive_search_vastai.py`: the vast.ai
offer search, cost model, ranking, curses selection loop and bid-creation
call.  Python floats are modelled as rationals (ℚ); dictionary fields that
may be absent or `null` are modelled by the three-valued `JVal`.
-/

/-- A JSON-ish numeric cell of an offer dictionary: the key may be missing
entirely, present with value `null` (Python `None`), or hold a number. -/
inductive JVal where
  | missing : JVal
  | null : JVal
  | num : ℚ → JVal
deriving DecidableEq, Repr

/-- Python `offer.get(key, default)` where `default` is itself either a
number (`some q`) or `None`/a further miss (`none`): a missing key yields
the default, a `null` value yields `none`, a number yields itself. -/
def jget (v : JVal) (d : Option ℚ) : Option ℚ :=
  match v with
  | .missing => d
  | .null => none
  | .num q => some q

/-- Python `x or 0` on a numeric-or-`None` value: `None` becomes `0`
(and `0 or 0` is numerically `0`, so `some q ↦ q` is faithful). -/
def orZero (x : Option ℚ) : ℚ :=
  match x with
  | none => 0
  | some q => q

/-- The two query categories: `-d` (on-demand) and `-b` (bid/interruptible). -/
inductive InstanceType where
  | onDemand : InstanceType
  | bid : InstanceType
deriving DecidableEq, Repr

/-- One marketplace offer, with the fields the script reads.  `instance_type`
is `none` on the raw parsed record and set by `run_vastai_search`;
`estimated_total_cost` is attached by `main` before sorting. -/
structure Offer where
  id : Nat
  instance_type : Option InstanceType
  gpu_name : String
  num_gpus : Nat
  gpu_ram : JVal
  dph : JVal
  dph_total : JVal
  storage_cost : JVal
  inet_down_cost : JVal
  inet_up_cost : JVal
  inet_down : JVal
  inet_up : JVal
  geolocation : String
  reliability : JVal
  total_flops : JVal
  estimated_total_cost : JVal
deriving DecidableEq, Repr

/-- An offer with every optional field absent. -/
def Offer.empty : Offer :=
  { id := 0
    instance_type := none
    gpu_name := ""
    num_gpus := 0
    gpu_ram := .missing
    dph := .missing
    dph_total := .missing
    storage_cost := .missing
    inet_down_cost := .missing
    inet_up_cost := .missing
    inet_down := .missing
    inet_up := .missing
    geolocation := ""
    reliability := .missing
    total_flops := .missing
    estimated_total_cost := .missing }

instance : Inhabited Offer := ⟨Offer.empty⟩

/-- `CONTAINER_SIZE_GB = 120`. -/
def CONTAINER_SIZE_GB : ℚ := 120

/-- `DATA_DOWNLOAD_GB = 100`. -/
def DATA_DOWNLOAD_GB : ℚ := 100

/-- `EXCLUDE_GPU_NAMES = []` (the RTX 5090 entries are commented out). -/
def EXCLUDE_GPU_NAMES : List String := []

/-- `offer.get('dph_total', offer.get('dph', 0)) or 0`, the base hourly
price expression used both by `calculate_total_cost` (line 91) and by
`create_bid_instance` (line 164). -/
def dphOf (o : Offer) : ℚ :=
  orZero (jget o.dph_total (jget o.dph (some 0)))

/-- `calculate_total_cost` (lines 83-104): base rental + hourly-amortized
storage for the 120 GB container + one-time download cost for 100 GB. -/
def calculate_total_cost (o : Offer) : ℚ :=
  let dph := dphOf o
  let storage_cost_per_gb_month := orZero (jget o.storage_cost (some 0))
  let storage_cost_hourly := (CONTAINER_SIZE_GB * storage_cost_per_gb_month) / (30 * 24)
  let inet_down_cost := orZero (jget o.inet_down_cost (some 0))
  let download_cost_total := DATA_DOWNLOAD_GB * inet_down_cost
  dph + storage_cost_hourly + download_cost_total

/-- The field is present with a non-negative number, or not a number at
all — the §3 data-model invariant for the optional price fields. -/
def JVal.nonneg : JVal → Prop
  | .num q => 0 ≤ q
  | _ => True

/-- The field carries no number: the key is missing or its value is null. -/
def JVal.absent : JVal → Prop
  | .num _ => False
  | _ => True

/-- Boolean prefix test on character lists (for the substring check below). -/
def listPrefixOf : List Char → List Char → Bool
  | [], _ => true
  | _ :: _, [] => false
  | a :: as, b :: bs => a == b && listPrefixOf as bs

/-- Python `needle in hay` on strings: some suffix of `hay` starts with
`needle`. -/
def strContains (hay needle : String) : Bool :=
  (List.range (hay.data.length + 1)).any (fun i => listPrefixOf needle.data (hay.data.drop i))

/-- What the external `vastai search offers` subprocess call can come back
with: a non-zero exit (`CalledProcessError`), un-parsable stdout
(`JSONDecodeError`), or a parsed JSON array of offers. -/
inductive SearchResponse where
  | err : SearchResponse
  | badJson : SearchResponse
  | ok : List Offer → SearchResponse
deriving DecidableEq

/-- `run_vastai_search` (lines 37-80) as a function of the external tool's
response: on failure or bad JSON it returns `[]`; on success it drops offers
whose GPU name contains an excluded substring and tags the rest with the
query's instance type. -/
def run_vastai_search (t : InstanceType) (resp : SearchResponse) : List Offer :=
  match resp with
  | .err => []
  | .badJson => []
  | .ok offers =>
    (offers.filter
        (fun o => ! EXCLUDE_GPU_NAMES.any (fun ex => strContains o.gpu_name ex))).map
      (fun o => { o with instance_type := some t })

/-- Line 291: `offer['estimated_total_cost'] = calculate_total_cost(offer)`. -/
def enrich (o : Offer) : Offer :=
  { o with estimated_total_cost := .num (calculate_total_cost o) }

/-- The sort key `x['estimated_total_cost']` (line 294).  `main` attaches the
field to every offer before sorting, so the `.num` branch is the only one
reached; the other branches are totalized with 0. -/
def ecost (o : Offer) : ℚ :=
  match o.estimated_total_cost with
  | .num q => q
  | .missing => 0
  | .null => 0

/-- The comparison used to model `list.sort(key=...)`: ascending by cost. -/
def costLE (a b : Offer) : Bool :=
  decide (ecost a ≤ ecost b)

/-- `all_offers.sort(key=lambda x: x['estimated_total_cost'])` (line 294):
Python's `list.sort` is a stable ascending sort, modelled by `mergeSort`. -/
def sortOffers (l : List Offer) : List Offer :=
  l.mergeSort costLE

/-- The Ranker: attach costs (lines 290-291), then stable-sort (line 294). -/
def rank (offers : List Offer) : List Offer :=
  sortOffers (offers.map enrich)

/-- Python `int()` on a float/rational: truncation toward zero. -/
def pyInt (q : ℚ) : ℤ :=
  if 0 ≤ q then ⌊q⌋ else ⌈q⌉

/-- The VRAM column of `format_table_row` (lines 131-136): `gpu_ram` is the
raw numeric value (`offer.get('gpu_ram', 0)`).  Python's
`if gpu_ram and gpu_ram < 1000` is truthiness (`gpu_ram ≠ 0`) plus the
comparison; the else-branch divides by 1024 only when `gpu_ram > 1000`. -/
def format_vram (num_gpus : ℕ) (gpu_ram : ℚ) : String :=
  if gpu_ram ≠ 0 ∧ gpu_ram < 1000 then
    toString num_gpus ++ "x" ++ toString (pyInt gpu_ram) ++ "G"
  else
    let vram_gb := if gpu_ram > 1000 then gpu_ram / 1024 else gpu_ram
    toString num_gpus ++ "x" ++ toString (pyInt vram_gb) ++ "G"

/-- The keys the selection loop distinguishes (lines 256-263): arrow up,
arrow down, Enter/Return (10, 13, `KEY_ENTER`), `q`/`Q`, anything else. -/
inductive Key where
  | up : Key
  | down : Key
  | enter : Key
  | q : Key
  | other : Key
deriving DecidableEq, Repr

/-- One navigation step of `_select_loop` over `n` offers (lines 256-259):
up decrements with floor 0, down increments with ceiling `n - 1`,
every other key leaves the cursor unchanged. -/
def moveCursor (n c : ℕ) (k : Key) : ℕ :=
  match k with
  | .up => if 0 < c then c - 1 else c
  | .down => if c < n - 1 then c + 1 else c
  | _ => c

/-- Cursor position after a sequence of keypresses. -/
def cursorAfter (n c : ℕ) (ks : List Key) : ℕ :=
  ks.foldl (moveCursor n) c

/-- `_select_loop` (lines 250-265) run on a list of pending keypresses:
`some (some c, rest)` means Enter selected row `c` leaving `rest` of the
input unread, `some (none, rest)` means `q`/`Q` quit, and `none` means the
key list ran out while the loop was still blocking on `getch`. -/
def selectRun (n : ℕ) : ℕ → List Key → Option (Option ℕ × List Key)
  | _, [] => none
  | c, k :: ks =>
    match k with
    | .enter => some (some c, ks)
    | .q => some (none, ks)
    | _ => selectRun n (moveCursor n c k) ks

/-- The `vastai create instance` invocation shape: id, `--disk`, an optional
`--bid_price` flag, `--template_hash`. -/
structure CommitCall where
  machine_id : ℕ
  disk : ℕ
  bid_price : Option ℚ
  template_hash : String
deriving DecidableEq

/-- `create_bid_instance` (lines 159-177): the command it issues.  The
`--bid_price` flag is always present and always `dph + 0.01`, with no branch
on the offer's instance type. -/
def create_bid_instance_call (o : Offer) : CommitCall :=
  { machine_id := o.id
    disk := 120
    bid_price := some (dphOf o + 1/100)
    template_hash := "a3b79706f4f5ed8164bb1fadaeea2718" }

/-- How a run of `main` ends.  `noOffers` is the `sys.exit(1)` with the
"No offers found matching criteria!" message (lines 283-285); `emptyTop` is
the bare `return` at line 300; `cancelled` is "Selection cancelled." after a
quit (lines 305-308); `bidCancelled` is "Bid cancelled." after a non-`y`
confirmation (line 317); `committed` carries the issued create-instance
call (line 315); `awaitingInput` marks a run whose modelled key list ran out
while the blocking loop was still waiting for a keypress. -/
inductive RunOutcome where
  | noOffers : RunOutcome
  | emptyTop : RunOutcome
  | cancelled : RunOutcome
  | bidCancelled : RunOutcome
  | committed : CommitCall → RunOutcome
  | awaitingInput : RunOutcome
deriving DecidableEq

/-- Result of a run of `main`: whether the curses view was ever entered
(a render call issued), and how the run ended. -/
structure MainResult where
  rendered : Bool
  outcome : RunOutcome
deriving DecidableEq

/-- `all_offers = on_demand_offers + bid_offers` (lines 277-281). -/
def allOffers (onDemandResp bidResp : SearchResponse) : List Offer :=
  run_vastai_search .onDemand onDemandResp ++ run_vastai_search .bid bidResp

/-- `top_offers = all_offers[:15]` after enrichment and sorting
(lines 290-297). -/
def topOf (onDemandResp bidResp : SearchResponse) : List Offer :=
  (rank (allOffers onDemandResp bidResp)).take 15

/-- `main` (lines 270-317) as a function of the two search responses, the
pending keypresses, and the confirmation answer.  `confirm` models the value
of `input(...).strip().lower()` at line 313, i.e. the operator's answer
already normalized; the commit runs only when it equals `"y"`.  The curses
view draws immediately on entry, so `rendered` is true exactly when the
empty-result early exits are not taken. -/
def mainRun (onDemandResp bidResp : SearchResponse) (keys : List Key)
    (confirm : String) : MainResult :=
  if allOffers onDemandResp bidResp = [] then
    { rendered := false, outcome := .noOffers }
  else
    let top_offers := topOf onDemandResp bidResp
    if top_offers = [] then
      { rendered := false, outcome := .emptyTop }
    else
      match selectRun top_offers.length 0 keys with
      | none => { rendered := true, outcome := .awaitingInput }
      | some (none, _) => { rendered := true, outcome := .cancelled }
      | some (some idx, _) =>
        let selected_offer := top_offers.getD idx Offer.empty
        if confirm = "y" then
          { rendered := true, outcome := .committed (create_bid_instance_call selected_offer) }
        else
          { rendered := true, outcome := .bidCancelled }

/-- The create-instance call a finished run issued, if any. -/
def commits (r : MainResult) : Option CommitCall :=
  match r.outcome with
  | .committed call => some call
  | _ => none

/-- Modelled from the spec (§4.2), for comparison with the code: the base
term of the cost formula, "`dph_total` if present else `dph` else 0", with a
present-but-`null` field defaulting to 0 as §3 prescribes. -/
def specBase (o : Offer) : ℚ :=
  match o.dph_total with
  | .num q => q
  | .null => 0
  | .missing =>
    match o.dph with
    | .num q => q
    | .null => 0
    | .missing => 0

/-- Modelled from the spec (§4.2), for comparison with the code:
`base + storage + download` with
`storage = containerSizeGB * storage_cost / (30*24)` and
`download = downloadVolumeGB * inet_down_cost`, missing inputs read as 0. -/
def specEstimateHourlyCost (o : Offer) : ℚ :=
  let storage :=
    match o.storage_cost with
    | .num q => q
    | _ => 0
  let download :=
    match o.inet_down_cost with
    | .num q => q
    | _ => 0
  specBase o + (CONTAINER_SIZE_GB * storage) / (30 * 24) + DATA_DOWNLOAD_GB * download

/-- Modelled from the spec (§4.4), for comparison with the code: the
selection state machine in which answering "no" at the confirmation prompt
transitions `Confirming → Browsing`, resuming the loop over the same ranked
list with the remaining keypresses (one confirmation answer is consumed per
`Confirming` visit). -/
def specMainLoop (top : List Offer) (c : ℕ) (keys : List Key)
    (confirms : List String) : RunOutcome :=
  match selectRun top.length c keys with
  | none => .awaitingInput
  | some (none, _) => .cancelled
  | some (some idx, rest) =>
    match confirms with
    | [] => .awaitingInput
    | conf :: confs =>
      if conf = "y" then
        .committed (create_bid_instance_call (top.getD idx Offer.empty))
      else
        specMainLoop top idx rest confs
termination_by confirms.length
decreasing_by simp

/-- The worked example of §8: `{dph: 0.50, storage_cost: 7.30,
inet_down_cost: 0.0005}`. -/
def exampleOffer : Offer :=
  { Offer.empty with
    dph := .num (1/2)
    storage_cost := .num (73/10)
    inet_down_cost := .num (1/2000) }

/-- A concrete on-demand offer (dph 0.50) used in counterexamples. -/
def onDemandOffer : Offer :=
  { Offer.empty with
    id := 42
    instance_type := some .onDemand
    dph := .num (1/2) }

/-- An 8-GPU offer; agrees with `offerB` on the four cost inputs only. -/
def offerA : Offer :=
  { Offer.empty with
    id := 7
    gpu_name := "H100 SXM"
    num_gpus := 8
    gpu_ram := .num 80
    dph := .num 2
    geolocation := "US"
    reliability := .num (99/100)
    inet_down := .num 8000 }

/-- A single-GPU offer; agrees with `offerA` on the four cost inputs only. -/
def offerB : Offer :=
  { Offer.empty with
    id := 8
    instance_type := some .bid
    gpu_name := "RTX 4090"
    num_gpus := 1
    gpu_ram := .num 24
    dph := .num 2
    inet_up_cost := .num (1/1000)
    total_flops := .num 165 }

/-! ## Theorems -/

theorem orZero_jget_nonneg (v : JVal) (h : JVal.nonneg v) (d : Option ℚ)
    (hd : 0 ≤ orZero d) : 0 ≤ orZero (jget v d) := by
  cases v with
  | missing => simpa [jget] using hd
  | null => simp [jget, orZero]
  | num q => simpa [jget, orZero, JVal.nonneg] using h

theorem dphOf_nonneg (o : Offer) (h1 : JVal.nonneg o.dph_total)
    (h2 : JVal.nonneg o.dph) : 0 ≤ dphOf o := by
  unfold dphOf
  refine orZero_jget_nonneg _ h1 _ (orZero_jget_nonneg _ h2 _ ?_)
  simp [orZero]

/-- C1: `calculate_total_cost` computes exactly the spec's
`base + storage + download` formula, and on the worked example
(`dph = 0.50`, `storage_cost = 7.30`, `inet_down_cost = 0.0005`,
container 120 GB, download 100 GB) the storage term is `73/60 ≈ 1.2167`,
the download term is `0.05`, and the total is `53/30 ≈ 1.7667`, within
`10⁻⁴` of the spec's rounded `1.7667`. -/
theorem claim_C1_cost_formula :
    (∀ o : Offer, calculate_total_cost o = specEstimateHourlyCost o)
    ∧ calculate_total_cost exampleOffer = 53 / 30
    ∧ (CONTAINER_SIZE_GB * (73 / 10)) / (30 * 24) = (73 / 60 : ℚ)
    ∧ DATA_DOWNLOAD_GB * (1 / 2000) = (1 / 20 : ℚ)
    ∧ |(53 / 30 : ℚ) - 17667 / 10000| < 1 / 10000 := by
  refine ⟨?_, ?_, ?_, ?_, ?_⟩
  · intro o
    cases h1 : o.dph_total <;> cases h2 : o.dph <;> cases h3 : o.storage_cost <;>
      cases h4 : o.inet_down_cost <;>
        simp [calculate_total_cost, specEstimateHourlyCost, specBase, dphOf,
          jget, orZero, h1, h2, h3, h4]
  · norm_num [calculate_total_cost, dphOf, jget, orZero, CONTAINER_SIZE_GB,
      DATA_DOWNLOAD_GB, exampleOffer, Offer.empty]
  · norm_num [CONTAINER_SIZE_GB]
  · norm_num [DATA_DOWNLOAD_GB]
  · rw [abs_sub_lt_iff]
    norm_num

/-- C4 counterexample: for the concrete on-demand offer the code still
issues the commit call with `--bid_price` set (to `dph + 0.01 = 0.51`),
where the claim says the bid price should be absent for on-demand offers. -/
theorem claim_C4_counterexample :
    onDemandOffer.instance_type = some InstanceType.onDemand
    ∧ (create_bid_instance_call onDemandOffer).bid_price = some (51 / 100)
    ∧ some ((51 : ℚ) / 100) ≠ (none : Option ℚ) := by
  refine ⟨rfl, ?_, by simp⟩
  norm_num [create_bid_instance_call, dphOf, onDemandOffer, Offer.empty, jget, orZero]

/-- C4 (amended): `create_bid_instance` always passes
`bidPrice = dph + 0.01` (with `dph_total` preferred over `dph`, defaulting
to 0), for every offer regardless of its instance type; no commit call is
ever issued without a bid price. -/
theorem claim_C4_bid_price :
    ∀ o : Offer,
      (create_bid_instance_call o).bid_price = some (dphOf o + 1 / 100)
      ∧ (create_bid_instance_call o).bid_price ≠ none := by
  intro o
  simp [create_bid_instance_call]

/-- C7: under the §3 data-model invariant (present numeric fields are
non-negative), `calculate_total_cost` is a total function returning a
non-negative rational for every offer, however many of the four optional
inputs are missing or null; with all four missing/null it returns 0. -/
theorem claim_C7_total_nonneg :
    ∀ o : Offer,
      (JVal.nonneg o.dph_total → JVal.nonneg o.dph →
        JVal.nonneg o.storage_cost → JVal.nonneg o.inet_down_cost →
        0 ≤ calculate_total_cost o)
      ∧ (JVal.absent o.dph_total → JVal.absent o.dph →
        JVal.absent o.storage_cost → JVal.absent o.inet_down_cost →
        calculate_total_cost o = 0) := by
  intro o
  constructor
  · intro h1 h2 h3 h4
    unfold calculate_total_cost
    have hb := dphOf_nonneg o h1 h2
    have hs : 0 ≤ orZero (jget o.storage_cost (some 0)) :=
      orZero_jget_nonneg _ h3 _ (by simp [orZero])
    have hd : 0 ≤ orZero (jget o.inet_down_cost (some 0)) :=
      orZero_jget_nonneg _ h4 _ (by simp [orZero])
    have hC : (0 : ℚ) ≤ CONTAINER_SIZE_GB := by norm_num [CONTAINER_SIZE_GB]
    have hD : (0 : ℚ) ≤ DATA_DOWNLOAD_GB := by norm_num [DATA_DOWNLOAD_GB]
    refine add_nonneg (add_nonneg hb ?_) (mul_nonneg hD hd)
    exact div_nonneg (mul_nonneg hC hs) (by norm_num)
  · intro h1 h2 h3 h4
    cases e1 : o.dph_total <;> cases e2 : o.dph <;> cases e3 : o.storage_cost <;>
      cases e4 : o.inet_down_cost <;>
        simp_all [JVal.absent, calculate_total_cost, dphOf, jget, orZero,
          CONTAINER_SIZE_GB, DATA_DOWNLOAD_GB]

/-- Witness for C7 at concrete offers: the worked example's cost is
non-negative, and the all-fields-missing offer costs 0. -/
theorem claim_C7_witness :
    0 ≤ calculate_total_cost exampleOffer
    ∧ calculate_total_cost Offer.empty = 0 := by
  constructor
  · exact (claim_C7_total_nonneg exampleOffer).1
      (by norm_num [exampleOffer, Offer.empty, JVal.nonneg])
      (by norm_num [exampleOffer, Offer.empty, JVal.nonneg])
      (by norm_num [exampleOffer, Offer.empty, JVal.nonneg])
      (by norm_num [exampleOffer, Offer.empty, JVal.nonneg])
  · exact (claim_C7_total_nonneg Offer.empty).2
      (by norm_num [Offer.empty, JVal.absent])
      (by norm_num [Offer.empty, JVal.absent])
      (by norm_num [Offer.empty, JVal.absent])
      (by norm_num [Offer.empty, JVal.absent])

/-- C10: the cost model reads only `dph_total`, `dph`, `storage_cost` and
`inet_down_cost`; two offers agreeing on those four fields get the same
estimated cost whatever their other fields are. -/
theorem claim_C10_noninterference :
    ∀ o1 o2 : Offer,
      o1.dph_total = o2.dph_total → o1.dph = o2.dph →
      o1.storage_cost = o2.storage_cost → o1.inet_down_cost = o2.inet_down_cost →
      calculate_total_cost o1 = calculate_total_cost o2 := by
  intro o1 o2 h1 h2 h3 h4
  unfold calculate_total_cost dphOf
  rw [h1, h2, h3, h4]

/-- Witness for C10: `offerA` and `offerB` differ in id, GPU name, GPU
count, VRAM, geolocation, reliability, throughput, instance type and FLOPS,
yet get the same estimated cost. -/
theorem claim_C10_witness :
    calculate_total_cost offerA = calculate_total_cost offerB
    ∧ offerA.gpu_ram ≠ offerB.gpu_ram ∧ offerA.num_gpus ≠ offerB.num_gpus :=
  ⟨claim_C10_noninterference offerA offerB rfl rfl rfl rfl,
    by simp [offerA, offerB, Offer.empty], by simp [offerA, offerB, Offer.empty]⟩

theorem moveCursor_lt (n c : ℕ) (k : Key) (h : c < n) : moveCursor n c k < n := by
  cases k <;> simp only [moveCursor] <;> (try split_ifs) <;> omega

/-- C3: in a selection loop over `n > 0` offers the cursor never leaves
`[0, n-1]` under any key sequence; up-arrow at 0 stays at 0, down-arrow at
`n-1` stays at `n-1`; and over 3 offers the sequence [down, down, down]
from cursor 0 ends at 2, not 3. -/
theorem claim_C3_cursor_bounds (n : ℕ) (hn : 0 < n) :
    (∀ (c : ℕ) (ks : List Key), c < n → cursorAfter n c ks < n)
    ∧ moveCursor n 0 Key.up = 0
    ∧ moveCursor n (n - 1) Key.down = n - 1
    ∧ cursorAfter 3 0 [Key.down, Key.down, Key.down] = 2 := by
  refine ⟨?_, ?_, ?_, by decide⟩
  · intro c ks
    induction ks generalizing c with
    | nil => intro h; simpa [cursorAfter] using h
    | cons k ks ih =>
      intro h
      have hstep := moveCursor_lt n c k h
      simpa [cursorAfter] using ih (moveCursor n c k) hstep
  · simp [moveCursor]
  · simp [moveCursor]

/-- Witness for C3 over a concrete 3-offer list: a longer all-down sequence
stays below 3, and [down, down, down] from 0 lands on 2. -/
theorem claim_C3_witness :
    cursorAfter 3 0 [Key.down, Key.down, Key.down, Key.down] < 3
    ∧ cursorAfter 3 0 [Key.down, Key.down, Key.down] = 2 :=
  ⟨(claim_C3_cursor_bounds 3 (by norm_num)).1 0
      [Key.down, Key.down, Key.down, Key.down] (by norm_num),
    (claim_C3_cursor_bounds 3 (by norm_num)).2.2.2⟩

/-- C9 counterexample: at `gpu_ram = 1000` exactly (with one GPU) the code
renders the raw value ("1x1000G"), while the claim's "otherwise divided by
1024" rendering would be "1x0G".  The code divides only for values strictly
greater than 1000. -/
theorem claim_C9_counterexample :
    format_vram 1 1000 = "1x1000G"
    ∧ toString (1 : ℕ) ++ "x" ++ toString (pyInt ((1000 : ℚ) / 1024)) ++ "G" = "1x0G"
    ∧ ("1x1000G" : String) ≠ "1x0G" := by
  refine ⟨?_, ?_, by decide⟩
  · have h0 : pyInt (1000 : ℚ) = 1000 := by norm_num [pyInt]
    have h : format_vram 1 1000
        = toString (1 : ℕ) ++ "x" ++ toString (pyInt (1000 : ℚ)) ++ "G" := by
      simp only [format_vram]
      norm_num
    rw [h, h0]
    decide
  · have h0 : pyInt ((1000 : ℚ) / 1024) = 0 := by norm_num [pyInt]
    rw [h0]
    decide

/-- C9 (amended): the Formatter's VRAM string takes the raw `gpu_ram` value
as already in GB when it is at most 1000 (the boundary value 1000 included),
and divides by 1024 only when it is strictly greater than 1000; the figure
shown is int-truncated and prefixed with `num_gpus`. -/
theorem claim_C9_vram_threshold :
    ∀ (g : ℕ) (q : ℚ),
      (q ≤ 1000 → format_vram g q = toString g ++ "x" ++ toString (pyInt q) ++ "G")
      ∧ (1000 < q → format_vram g q = toString g ++ "x" ++ toString (pyInt (q / 1024)) ++ "G") := by
  intro g q
  constructor
  · intro h
    simp only [format_vram]
    split_ifs with h1 h2
    · rfl
    · exact absurd h (not_le.mpr h2)
    · rfl
  · intro h
    simp only [format_vram]
    split_ifs with h1
    · exfalso
      have := h1.2
      linarith
    · rfl

/-- Witness for C9 at concrete values: 500 is rendered raw, 2048 is rendered
divided by 1024. -/
theorem claim_C9_witness :
    format_vram 2 500 = "2x500G" ∧ format_vram 1 2048 = "1x2G" := by
  constructor
  · have h := (claim_C9_vram_threshold 2 500).1 (by norm_num)
    have h0 : pyInt (500 : ℚ) = 500 := by norm_num [pyInt]
    rw [h, h0]
    decide
  · have h := (claim_C9_vram_threshold 1 2048).2 (by norm_num)
    have h0 : pyInt ((2048 : ℚ) / 1024) = 2 := by norm_num [pyInt]
    rw [h, h0]
    decide

theorem topOf_ne_nil (r1 r2 : SearchResponse) (h : allOffers r1 r2 ≠ []) :
    topOf r1 r2 ≠ [] := by
  unfold topOf
  intro hc
  rcases List.take_eq_nil_iff.mp hc with h15 | hr
  · exact absurd h15 (by norm_num)
  · apply h
    have hlen := congrArg List.length hr
    simp only [rank, sortOffers, List.length_mergeSort, List.length_map,
      List.length_nil] at hlen
    exact List.eq_nil_of_length_eq_zero hlen

/-- C5 counterexample: with one ranked offer, keys [Enter, q] and the
answer "n", the code ends the run with "Bid cancelled."
(`RunOutcome.bidCancelled`, the trailing `q` never read), whereas the
claimed `Confirming → Browsing` resumption (`specMainLoop`) would consume
the `q` in the resumed loop and end `Cancelled`. -/
theorem claim_C5_counterexample :
    (mainRun (.ok [onDemandOffer]) .err [Key.enter, Key.q] "n").outcome
      = RunOutcome.bidCancelled
    ∧ specMainLoop (topOf (.ok [onDemandOffer]) .err) 0 [Key.enter, Key.q] ["n"]
      = RunOutcome.cancelled
    ∧ RunOutcome.bidCancelled ≠ RunOutcome.cancelled := by
  refine ⟨?_, ?_, by simp⟩
  · simp [mainRun, allOffers, topOf, rank, sortOffers, run_vastai_search,
      EXCLUDE_GPU_NAMES, selectRun]
  · simp [specMainLoop, topOf, rank, sortOffers, allOffers, run_vastai_search,
      EXCLUDE_GPU_NAMES, selectRun]

/-- C5 (amended): answering anything but "y" at the confirmation prompt
issues no commit call, and the run ends there with "Bid cancelled." — the
selection loop is not resumed (the remaining input is never read). -/
theorem claim_C5_no_resume :
    ∀ (r1 r2 : SearchResponse) (keys : List Key) (confirm : String)
      (idx : ℕ) (rest : List Key),
      confirm ≠ "y" →
      allOffers r1 r2 ≠ [] →
      selectRun (topOf r1 r2).length 0 keys = some (some idx, rest) →
      (mainRun r1 r2 keys confirm).outcome = RunOutcome.bidCancelled
      ∧ commits (mainRun r1 r2 keys confirm) = none := by
  intro r1 r2 keys confirm idx rest hconf hall hsel
  have htop := topOf_ne_nil r1 r2 hall
  constructor <;> simp [mainRun, commits, hall, htop, hsel, hconf]

/-- Witness for C5 (amended) at a concrete run: one offer, Enter, then "n". -/
theorem claim_C5_witness :
    (mainRun (.ok [offerA]) .err [Key.enter] "n").outcome = RunOutcome.bidCancelled
    ∧ commits (mainRun (.ok [offerA]) .err [Key.enter] "n") = none :=
  claim_C5_no_resume (.ok [offerA]) .err [Key.enter] "n" 0 [] (by decide)
    (by simp [allOffers, run_vastai_search, EXCLUDE_GPU_NAMES])
    (by simp [topOf, rank, sortOffers, allOffers, run_vastai_search,
      EXCLUDE_GPU_NAMES, selectRun])

/-- C6: pressing `q` at any point of the selection loop (any cursor, after
any run of navigation keys) quits with `None`, and `main` then ends in
`Cancelled` ("Selection cancelled.") having issued no create-instance
call. -/
theorem claim_C6_quit_cancels :
    (∀ (n c : ℕ) (ks1 ks2 : List Key),
      (∀ k ∈ ks1, k ≠ Key.enter ∧ k ≠ Key.q) →
      selectRun n c (ks1 ++ Key.q :: ks2) = some (none, ks2))
    ∧ (∀ (r1 r2 : SearchResponse) (keys : List Key) (confirm : String)
        (rest : List Key),
      allOffers r1 r2 ≠ [] →
      selectRun (topOf r1 r2).length 0 keys = some (none, rest) →
      (mainRun r1 r2 keys confirm).outcome = RunOutcome.cancelled
      ∧ commits (mainRun r1 r2 keys confirm) = none) := by
  constructor
  · intro n c ks1 ks2 h
    induction ks1 generalizing c with
    | nil => simp [selectRun]
    | cons k ks ih =>
      have hk := h k (List.mem_cons_self k ks)
      have hrest : ∀ x ∈ ks, x ≠ Key.enter ∧ x ≠ Key.q :=
        fun x hx => h x (List.mem_cons_of_mem k hx)
      cases k with
      | enter => exact absurd rfl hk.1
      | q => exact absurd rfl hk.2
      | up =>
        simp only [List.cons_append, selectRun]
        exact ih _ hrest
      | down =>
        simp only [List.cons_append, selectRun]
        exact ih _ hrest
      | other =>
        simp only [List.cons_append, selectRun]
        exact ih _ hrest
  · intro r1 r2 keys confirm rest hall hsel
    have htop := topOf_ne_nil r1 r2 hall
    constructor <;> simp [mainRun, commits, hall, htop, hsel]

/-- Witness for C6 at a concrete run: `q` as first key quits, and the run
over one offer ends `Cancelled` with no commit even though the
confirmation answer would have been "y". -/
theorem claim_C6_witness :
    selectRun 1 0 [Key.q] = some (none, [])
    ∧ (mainRun (.ok [onDemandOffer]) .err [Key.q] "y").outcome = RunOutcome.cancelled
    ∧ commits (mainRun (.ok [onDemandOffer]) .err [Key.q] "y") = none := by
  have h1 := claim_C6_quit_cancels.1 1 0 [] [] (by simp)
  have h2 := claim_C6_quit_cancels.2 (.ok [onDemandOffer]) .err [Key.q] "y" []
    (by simp [allOffers, run_vastai_search, EXCLUDE_GPU_NAMES])
    (by simp [topOf, rank, sortOffers, allOffers, run_vastai_search,
      EXCLUDE_GPU_NAMES, selectRun])
  exact ⟨by simpa using h1, h2.1, h2.2⟩

/-- C8: a failed category search (non-zero exit or invalid JSON) yields the
empty offer list for that category; `main` exits with the "no offers found"
error (and no render) exactly when both categories contribute nothing, and
otherwise always enters the rendered selection view. -/
theorem claim_C8_failure_isolation :
    (∀ t : InstanceType,
      run_vastai_search t .err = [] ∧ run_vastai_search t .badJson = [])
    ∧ (∀ (r1 r2 : SearchResponse) (keys : List Key) (confirm : String),
      allOffers r1 r2 = [] →
      mainRun r1 r2 keys confirm = { rendered := false, outcome := RunOutcome.noOffers })
    ∧ (∀ (r1 r2 : SearchResponse) (keys : List Key) (confirm : String),
      allOffers r1 r2 ≠ [] →
      (mainRun r1 r2 keys confirm).rendered = true
      ∧ (mainRun r1 r2 keys confirm).outcome ≠ RunOutcome.noOffers) := by
  refine ⟨?_, ?_, ?_⟩
  · intro t
    exact ⟨rfl, rfl⟩
  · intro r1 r2 keys confirm h
    simp [mainRun, h]
  · intro r1 r2 keys confirm h
    have htop := topOf_ne_nil r1 r2 h
    rcases hsel : selectRun (topOf r1 r2).length 0 keys with _ | ⟨sel, rest⟩
    · simp [mainRun, h, htop, hsel]
    · rcases sel with _ | idx
      · simp [mainRun, h, htop, hsel]
      · by_cases hc : confirm = "y" <;> simp [mainRun, h, htop, hsel, hc]

/-- Witness for C8 at concrete runs: both categories failing gives the
no-offers exit with nothing rendered; one successful category renders. -/
theorem claim_C8_witness :
    mainRun .err .badJson [] "y" = { rendered := false, outcome := RunOutcome.noOffers }
    ∧ (mainRun (.ok [offerB]) .err [] "y").rendered = true := by
  constructor
  · exact claim_C8_failure_isolation.2.1 .err .badJson [] "y"
      (by simp [allOffers, run_vastai_search])
  · exact (claim_C8_failure_isolation.2.2 (.ok [offerB]) .err [] "y"
      (by simp [allOffers, run_vastai_search, EXCLUDE_GPU_NAMES])).1

theorem costLE_trans : ∀ a b c : Offer, costLE a b → costLE b c → costLE a c := by
  intro a b c hab hbc
  simp only [costLE, decide_eq_true_eq] at *
  exact le_trans hab hbc

theorem costLE_total : ∀ a b : Offer, costLE a b || costLE b a := by
  intro a b
  simpa [costLE] using le_total (ecost a) (ecost b)

/-- C2: `rank` stable-sorts ascending by `estimated_total_cost`: for every
input list the ranked output is pairwise nondecreasing in estimated cost,
and for every cost value the offers carrying that cost appear in exactly
the order they had in the merged (enriched) input — Python's `list.sort`
is stable, modelled by `mergeSort`. -/
theorem claim_C2_rank_stable_sorted :
    ∀ l : List Offer,
      List.Pairwise (fun a b => ecost a ≤ ecost b) (rank l)
      ∧ ∀ c : ℚ,
        (rank l).filter (fun o => decide (ecost o = c))
          = (l.map enrich).filter (fun o => decide (ecost o = c)) := by
  intro l
  simp only [rank, sortOffers]
  constructor
  · have h := @List.sorted_mergeSort Offer costLE costLE_trans costLE_total (l.map enrich)
    exact h.imp (fun hb => by simpa [costLE] using hb)
  · intro c
    set m := l.map enrich with hm
    have hpw : (m.filter (fun o => decide (ecost o = c))).Pairwise
        (fun a b => costLE a b) := by
      apply List.pairwise_of_forall_mem_list
      intro a ha b hb
      have ha2 : ecost a = c := by simpa using (List.mem_filter.mp ha).2
      have hb2 : ecost b = c := by simpa using (List.mem_filter.mp hb).2
      simp [costLE, ha2, hb2]
    have hsub : List.Sublist (m.filter (fun o => decide (ecost o = c)))
        (m.mergeSort costLE) :=
      List.sublist_mergeSort costLE_trans costLE_total hpw (List.filter_sublist m)
    have hsub2 : List.Sublist (m.filter (fun o => decide (ecost o = c)))
        ((m.mergeSort costLE).filter (fun o => decide (ecost o = c))) := by
      have h2 := hsub.filter (fun o => decide (ecost o = c))
      simpa [List.filter_filter] using h2
    have hperm := (List.mergeSort_perm m costLE).filter (fun o => decide (ecost o = c))
    exact (hsub2.eq_of_length hperm.length_eq.symm).symm
